import Mathlib

/-!
Verification of the sensitive-content detection / anonymization / policy
pipeline of the safeaibackend repository.

The JavaScript modules are shallowly embedded:
* the detector (`analyzeText` and its scanners, src/unnamed/part_004),
* the policy engine (`makeDecision`, src/modules/policyEngine.js),
* the anonymizer (`anonymizeText`, src/unnamed/part_002),
* the entity mapper (`buildEntityMap`, src/services/TelemetryService.js),
* the output filter (`scanOutput`, src/unnamed/part_003).

JavaScript regular expressions are embedded by a regex AST together with a
backtracking matcher that follows ECMAScript matching semantics: leftmost
match, alternatives tried left to right, greedy quantifiers prefer longer
matches and lazy quantifiers shorter ones, `\b` is the `[A-Za-z0-9_]` word
boundary.  The matcher carries a fuel argument for termination; the fuel
chosen by the top-level entry points is far larger than the recursion depth
any of the embedded patterns can reach on a given input (all unbounded
quantifiers in the source patterns have single-character bodies, so the
recursion depth is bounded by pattern size plus text length).

Strings are modelled as lists of unicode scalar values; every input
considered here lies in the basic multilingual plane, where JavaScript
UTF-16 indices and scalar-value indices agree.  `toLowerCase` is modelled
by ASCII case folding, which agrees with JavaScript on the inputs involved
(the only non-ASCII text in the patterns is Hebrew, which has no case).
-/

namespace SafeAI

/-! ## Regex AST and backtracking matcher -/

/-- Regex abstract syntax: empty pattern, single-character class, sequence,
ordered alternation, bounded/unbounded repetition (`lazyQ` marks a lazy
quantifier), and the `\b` word-boundary assertion. -/
inductive RE where
  | eps
  | cls (p : Char → Bool)
  | seq (a b : RE)
  | alt (a b : RE)
  | rep (a : RE) (lo : Nat) (hi : Option Nat) (lazyQ : Bool)
  | wb

/-- JavaScript word character for `\b` and `\w`: `[A-Za-z0-9_]`. -/
def jsWord (c : Char) : Bool :=
  ('a' ≤ c && c ≤ 'z') || ('A' ≤ c && c ≤ 'Z') || ('0' ≤ c && c ≤ '9') || c = '_'

/-- JavaScript whitespace class `\s`. -/
def jsSpace (c : Char) : Bool :=
  c = ' ' || c = '\t' || c = '\n' || c = '\r' || c = '\x0b' || c = '\x0c' ||
  c.val = 0xa0 || c.val = 0x1680 || (0x2000 ≤ c.val && c.val ≤ 0x200a) ||
  c.val = 0x2028 || c.val = 0x2029 || c.val = 0x202f || c.val = 0x205f ||
  c.val = 0x3000 || c.val = 0xfeff

/-- JavaScript `.` (without the `s` flag): any character except a line
terminator. -/
def jsDot (c : Char) : Bool :=
  !(c = '\n' || c = '\r' || c.val = 0x2028 || c.val = 0x2029)

def isWordOpt : Option Char → Bool
  | none => false
  | some c => jsWord c

/-- `\b` holds between `prev` and the head of `s` iff exactly one side is a
word character (ends of the string count as non-word). -/
def atWB (prev : Option Char) (s : List Char) : Bool :=
  isWordOpt prev != isWordOpt s.head?

/-- Backtracking matcher in continuation-passing style.  `prev` is the
character just before the current position (for `\b`), `s` the remaining
input, and `k` the continuation receiving the state after `r`.  Returns the
first success in ECMAScript priority order.  `fuel` only enforces
termination; it strictly exceeds the reachable recursion depth at every
use below. -/
def mre (fuel : Nat) (r : RE) (prev : Option Char) (s : List Char)
    (k : Option Char → List Char → Option (List Char)) : Option (List Char) :=
  match fuel with
  | 0 => none
  | fuel + 1 =>
    match r with
    | .eps => k prev s
    | .wb => if atWB prev s then k prev s else none
    | .cls p =>
      match s with
      | [] => none
      | c :: rest => if p c then k (some c) rest else none
    | .seq a b => mre fuel a prev s (fun p2 s2 => mre fuel b p2 s2 k)
    | .alt a b =>
      match mre fuel a prev s k with
      | some res => some res
      | none => mre fuel b prev s k
    | .rep a lo hi lazyQ =>
      match lo with
      | lo' + 1 =>
        mre fuel a prev s (fun p2 s2 =>
          mre fuel (.rep a lo' (hi.map (· - 1)) lazyQ) p2 s2 k)
      | 0 =>
        match hi with
        | some 0 => k prev s
        | _ =>
          if lazyQ then
            match k prev s with
            | some res => some res
            | none =>
              mre fuel a prev s (fun p2 s2 =>
                mre fuel (.rep a 0 (hi.map (· - 1)) lazyQ) p2 s2 k)
          else
            match mre fuel a prev s (fun p2 s2 =>
                mre fuel (.rep a 0 (hi.map (· - 1)) lazyQ) p2 s2 k) with
            | some res => some res
            | none => k prev s

/-- Fuel bound used by the matching entry points: generously larger than
the depth reachable by any embedded pattern on `text`. -/
def fuelFor (text : List Char) : Nat := 2 * text.length + 300

/-- Try to match `r` at position `i` of `text`; returns the length of the
match chosen by backtracking, if any. -/
def matchAt (r : RE) (text : List Char) (i : Nat) : Option Nat :=
  let prev := if i = 0 then none else text.get? (i - 1)
  let rest := text.drop i
  match mre (fuelFor text) r prev rest (fun _ s => some s) with
  | some rem => some (rest.length - rem.length)
  | none => none

def searchFromGo (r : RE) (text : List Char) : Nat → Nat → Option (Nat × Nat)
  | 0, _ => none
  | n + 1, i =>
    match matchAt r text i with
    | some len => some (i, len)
    | none => searchFromGo r text n (i + 1)

/-- Leftmost match of `r` in `text` at or after position `start`
(the search that `RegExp.exec` performs from `lastIndex`): the starting
position and the matched length. -/
def searchFrom (r : RE) (text : List Char) (start : Nat) : Option (Nat × Nat) :=
  searchFromGo r text (text.length + 1 - start) start

/-- `pattern.lastIndex = 0; pattern.test(text)` for a global regex. -/
def reTest (r : RE) (text : String) : Bool :=
  (searchFrom r text.data 0).isSome

/-! ## Pattern construction helpers -/

def rcat : List RE → RE
  | [] => .eps
  | [r] => r
  | r :: rest => .seq r (rcat rest)

def ralt : List RE → RE
  | [] => .eps
  | [r] => r
  | r :: rest => .alt r (ralt rest)

def rchar (c : Char) : RE := .cls (fun x => x = c)

/-- Case-insensitive single character (the `i` flag). -/
def rcharCI (c : Char) : RE := .cls (fun x => x.toLower = c.toLower)

def rstr (s : String) : RE := rcat (s.data.map rchar)

def rstrCI (s : String) : RE := rcat (s.data.map rcharCI)

def rplus (r : RE) : RE := .rep r 1 none false
def rstar (r : RE) : RE := .rep r 0 none false
def ropt (r : RE) : RE := .rep r 0 (some 1) false
def rexact (r : RE) (n : Nat) : RE := .rep r n (some n) false
def rrange (r : RE) (lo hi : Nat) : RE := .rep r lo (some hi) false
def ratleast (r : RE) (lo : Nat) : RE := .rep r lo none false

def jsDigit (c : Char) : Bool := '0' ≤ c && c ≤ '9'
def asciiAlpha (c : Char) : Bool := ('a' ≤ c && c ≤ 'z') || ('A' ≤ c && c ≤ 'Z')
def asciiAlnum (c : Char) : Bool := asciiAlpha c || jsDigit c
def upperAZ (c : Char) : Bool := 'A' ≤ c && c ≤ 'Z'
def upperOrDigit (c : Char) : Bool := upperAZ c || jsDigit c

/-- The single-quote character (codepoint 39). -/
def squoteChar : Char := Char.ofNat 39

/-! ## JavaScript string helpers -/

def hasPrefixL : List Char → List Char → Bool
  | [], _ => true
  | _ :: _, [] => false
  | a :: as, b :: bs => a = b && hasPrefixL as bs

def hasInfixL (sub : List Char) : List Char → Bool
  | [] => sub.isEmpty
  | c :: rest => hasPrefixL sub (c :: rest) || hasInfixL sub rest

/-- `a.includes(b)` on strings. -/
def jsIncludes (s sub : String) : Bool := hasInfixL sub.data s.data

def splitOnCharGo (sep : Char) : List Char → List Char → List String
  | [], acc => [String.mk acc.reverse]
  | c :: rest, acc =>
    if c = sep then String.mk acc.reverse :: splitOnCharGo sep rest []
    else splitOnCharGo sep rest (c :: acc)

/-- `s.split(sep)` for a single-character separator string (every
separator `split` is called with in the sources is one character). -/
def splitOnChar (sep : Char) (s : String) : List String := splitOnCharGo sep s.data []

/-- `String.prototype.toLowerCase`, restricted to ASCII case folding. -/
def jsToLower (s : String) : String := String.mk (s.data.map Char.toLower)

/-! ## The PII pattern table (src/unnamed/part_004, `PII_PATTERNS`)
Each entry embeds the regex literal of the source, in the insertion order
of the `PII_PATTERNS` object (the order `Object.entries` yields). -/

/-- `/\b[A-Za-z0-9._%+-]+@[A-Za-z0-9.-]+\.[A-Za-z]{2,}\b/g` -/
def emailRE : RE := rcat [
  .wb,
  rplus (.cls (fun c => asciiAlnum c || c = '.' || c = '_' || c = '%' || c = '+' || c = '-')),
  rchar '@',
  rplus (.cls (fun c => asciiAlnum c || c = '.' || c = '-')),
  rchar '.',
  ratleast (.cls asciiAlpha) 2,
  .wb]

/-- `[-.\s]` as used by the phone pattern. -/
def phoneSep (c : Char) : Bool := c = '-' || c = '.' || jsSpace c

/-- `/\b(\+?\d{1,3}[-.\s]?)?\(?\d{3}\)?[-.\s]?\d{3}[-.\s]?\d{4}\b/g` -/
def phoneRE : RE := rcat [
  .wb,
  ropt (rcat [ropt (rchar '+'), rrange (.cls jsDigit) 1 3, ropt (.cls phoneSep)]),
  ropt (rchar '('),
  rexact (.cls jsDigit) 3,
  ropt (rchar ')'),
  ropt (.cls phoneSep),
  rexact (.cls jsDigit) 3,
  ropt (.cls phoneSep),
  rexact (.cls jsDigit) 4,
  .wb]

/-- `/\b\d{3}-?\d{2}-?\d{4}\b/g` -/
def ssnRE : RE := rcat [
  .wb, rexact (.cls jsDigit) 3, ropt (rchar '-'),
  rexact (.cls jsDigit) 2, ropt (rchar '-'),
  rexact (.cls jsDigit) 4, .wb]

/-- `/\b(?:\d{4}[-\s]?){3}\d{4}\b|\b\d{16}\b/g` -/
def creditCardRE : RE := .alt
  (rcat [.wb,
    rexact (rcat [rexact (.cls jsDigit) 4, ropt (.cls (fun c => c = '-' || jsSpace c))]) 3,
    rexact (.cls jsDigit) 4, .wb])
  (rcat [.wb, rexact (.cls jsDigit) 16, .wb])

/-- `/\b\d{9}\b/g` -/
def idNumberRE : RE := rcat [.wb, rexact (.cls jsDigit) 9, .wb]

/-- `/\b[A-Z]{2}\d{2}[A-Z0-9]{4}\d{7}([A-Z0-9]?){0,16}\b/g` -/
def ibanRE : RE := rcat [
  .wb, rexact (.cls upperAZ) 2, rexact (.cls jsDigit) 2,
  rexact (.cls upperOrDigit) 4, rexact (.cls jsDigit) 7,
  rrange (ropt (.cls upperOrDigit)) 0 16, .wb]

/-- The street-type alternation of the address pattern, in source order. -/
def streetWords : List String :=
  ["Street", "St", "Avenue", "Ave", "Road", "Rd", "Boulevard", "Blvd",
   "Lane", "Ln", "Drive", "Dr", "Court", "Ct", "Parkway", "Pkwy",
   "Place", "Pl", "Square", "Sq", "Trail", "Trl", "Circle", "Cir"]

/-- `/\b\d+\s+[A-Za-z]+\s+(Street|St|...|Circle|Cir)\b/gi` -/
def addressRE : RE := rcat [
  .wb, rplus (.cls jsDigit), rplus (.cls jsSpace),
  rplus (.cls asciiAlpha), rplus (.cls jsSpace),
  ralt (streetWords.map rstrCI), .wb]

/-- `/\b[A-Z]{1,2}\d{6,9}\b/g` -/
def passportRE : RE := rcat [
  .wb, rrange (.cls upperAZ) 1 2, rrange (.cls jsDigit) 6 9, .wb]

/-- `/\b[A-Z]{1,2}\d{5,8}\b/g` -/
def driversLicenseRE : RE := rcat [
  .wb, rrange (.cls upperAZ) 1 2, rrange (.cls jsDigit) 5 8, .wb]

/-- `[\s:#-]` as used by the medical/VAT patterns. -/
def labelSep (c : Char) : Bool := jsSpace c || c = ':' || c = '#' || c = '-'

/-- `/\b(MRN|Medical Record|Patient ID)[\s:#-]*\d{6,10}\b/gi` -/
def medicalIdRE : RE := rcat [
  .wb, ralt [rstrCI "MRN", rstrCI "Medical Record", rstrCI "Patient ID"],
  rstar (.cls labelSep), rrange (.cls jsDigit) 6 10, .wb]

/-- `/\b\d{2}-?\d{7}\b/g` -/
def taxIdRE : RE := rcat [
  .wb, rexact (.cls jsDigit) 2, ropt (rchar '-'), rexact (.cls jsDigit) 7, .wb]

/-- `/\b(VAT|Tax ID)[\s:#-]*[A-Z]{2}\d{8,12}\b/gi` (with the `i` flag the
`[A-Z]` class accepts both cases). -/
def vatNumberRE : RE := rcat [
  .wb, ralt [rstrCI "VAT", rstrCI "Tax ID"],
  rstar (.cls labelSep), rexact (.cls asciiAlpha) 2, rrange (.cls jsDigit) 8 12, .wb]

/-- `/\bsk-[A-Za-z0-9]{48}\b/g` -/
def apiKeyOpenaiRE : RE := rcat [.wb, rstr "sk-", rexact (.cls asciiAlnum) 48, .wb]

/-- `/\b(AKIA|ASIA)[A-Z0-9]{16}\b/g` -/
def apiKeyAwsRE : RE := rcat [
  .wb, ralt [rstr "AKIA", rstr "ASIA"], rexact (.cls upperOrDigit) 16, .wb]

def underscoreDash (c : Char) : Bool := c = '_' || c = '-'
def kvSep (c : Char) : Bool := jsSpace c || c = ':' || c = '='
def quoteChar (c : Char) : Bool := c = squoteChar || c = '"'
def keyBodyChar (c : Char) : Bool := asciiAlnum c || c = '_' || c = '-'

/-- `/\b(api[_-]?key|apikey|api[_-]?secret)[\s:=]+['"]?[A-Za-z0-9_\-]{20,}['"]?\b/gi` -/
def apiKeyGenericRE : RE := rcat [
  .wb,
  ralt [rcat [rstrCI "api", ropt (.cls underscoreDash), rstrCI "key"],
        rstrCI "apikey",
        rcat [rstrCI "api", ropt (.cls underscoreDash), rstrCI "secret"]],
  rplus (.cls kvSep), ropt (.cls quoteChar),
  ratleast (.cls keyBodyChar) 20, ropt (.cls quoteChar), .wb]

/-- `/\b(secret[_-]?key|private[_-]?key|access[_-]?token)[\s:=]+['"]?[A-Za-z0-9_\-]{20,}['"]?\b/gi` -/
def secretKeyRE : RE := rcat [
  .wb,
  ralt [rcat [rstrCI "secret", ropt (.cls underscoreDash), rstrCI "key"],
        rcat [rstrCI "private", ropt (.cls underscoreDash), rstrCI "key"],
        rcat [rstrCI "access", ropt (.cls underscoreDash), rstrCI "token"]],
  rplus (.cls kvSep), ropt (.cls quoteChar),
  ratleast (.cls keyBodyChar) 20, ropt (.cls quoteChar), .wb]

/-- The keyword alternation of `PII_PATTERNS.KEYWORDS`, in source order. -/
def keywordPhrases : List String :=
  ["client name", "customer name", "תיק מס", "מספר תיק", "salary list",
   "client list", "customer list", "employee list", "confidential", "proprietary"]

/-- `/\b(client name|customer name|תיק מס|מספר תיק|salary list|client list|customer list|employee list|confidential|proprietary)\b/gi` -/
def keywordsRE : RE := rcat [.wb, ralt (keywordPhrases.map rstrCI), .wb]

/-- `PII_PATTERNS` with its keys, in insertion order. -/
def PII_PATTERNS : List (String × RE) := [
  ("EMAIL", emailRE),
  ("PHONE", phoneRE),
  ("SSN", ssnRE),
  ("CREDIT_CARD", creditCardRE),
  ("ID_NUMBER", idNumberRE),
  ("IBAN", ibanRE),
  ("ADDRESS", addressRE),
  ("PASSPORT", passportRE),
  ("DRIVERS_LICENSE", driversLicenseRE),
  ("MEDICAL_ID", medicalIdRE),
  ("TAX_ID", taxIdRE),
  ("VAT_NUMBER", vatNumberRE),
  ("API_KEY_OPENAI", apiKeyOpenaiRE),
  ("API_KEY_AWS", apiKeyAwsRE),
  ("API_KEY_GENERIC", apiKeyGenericRE),
  ("SECRET_KEY", secretKeyRE),
  ("KEYWORDS", keywordsRE)]

/-! ## Injection pattern tables (src/unnamed/part_004) -/

/-- `SQL_INJECTION_PATTERNS`, in source order.  All entries carry the `i`
flag except the comment pattern, which contains no letters. -/
def SQL_INJECTION_PATTERNS : List RE := [
  rcat [.wb, rstrCI "UNION", .wb, rstar (.cls jsDot), .wb, rstrCI "SELECT", .wb],
  rcat [.wb, rstrCI "DROP", .wb, rstar (.cls jsDot), .wb, rstrCI "TABLE", .wb],
  rcat [.wb, rstrCI "INSERT", .wb, rstar (.cls jsDot), .wb, rstrCI "INTO", .wb,
        rstar (.cls jsDot), .wb, rstrCI "VALUES", .wb],
  rcat [.wb, rstrCI "DELETE", .wb, rstar (.cls jsDot), .wb, rstrCI "FROM", .wb],
  rcat [.wb, rstrCI "UPDATE", .wb, rstar (.cls jsDot), .wb, rstrCI "SET", .wb],
  rcat [rchar ';', rstar (.cls jsDot), .wb, rstrCI "DROP", .wb],
  rcat [rchar squoteChar, rstar (.cls jsDot), rstrCI "OR", rstar (.cls jsDot),
        rchar squoteChar, rstar (.cls jsDot), rchar '=', rstar (.cls jsDot),
        rchar squoteChar],
  ralt [rstr "--", rchar '#', rcat [rstr "/*", rstar (.cls jsDot), rstr "*/"]],
  ralt [rcat [.wb, rstrCI "EXEC", .wb], rcat [.wb, rstrCI "EXECUTE", .wb]],
  rcat [.wb, rstrCI "xp_cmdshell", .wb]]

def notGt (c : Char) : Bool := c ≠ '>'
def anyChar (_ : Char) : Bool := true
def dquoteOrSquote (c : Char) : Bool := c = '"' || c = squoteChar

/-- `XSS_PATTERNS`, in source order. -/
def XSS_PATTERNS : List RE := [
  rcat [rstrCI "<script", .wb, rstar (.cls notGt), rchar '>',
        .rep (.cls anyChar) 0 none true, rstrCI "</script>"],
  rcat [rstrCI "<iframe", .wb, rstar (.cls notGt), rchar '>'],
  rstrCI "javascript:",
  rcat [rstrCI "on",
        ralt [rstrCI "load", rstrCI "error", rstrCI "click",
              rcat [rstrCI "mouse", rplus (.cls jsWord)], rstrCI "focus", rstrCI "blur"],
        rstar (.cls jsSpace), rchar '='],
  rcat [rstrCI "<img", rplus (.cls notGt), rstrCI "src", rstar (.cls jsSpace),
        rchar '=', rstar (.cls jsSpace), ropt (.cls dquoteOrSquote), rstrCI "javascript:"],
  rcat [rstrCI "<object", .wb, rstar (.cls notGt), rchar '>'],
  rcat [rstrCI "<embed", .wb, rstar (.cls notGt), rchar '>'],
  rcat [rstrCI "eval", rstar (.cls jsSpace), rchar '('],
  rcat [rstrCI "expression", rstar (.cls jsSpace), rchar '('],
  rstrCI "vbscript:"]

/-- `\s+` -/
def sp1 : RE := rplus (.cls jsSpace)

/-- `(previous|prior|above)` -/
def prevAlt : RE := ralt [rstrCI "previous", rstrCI "prior", rstrCI "above"]

/-- `(safety|security|filter|protection)` -/
def safetyAlt : RE := ralt [rstrCI "safety", rstrCI "security", rstrCI "filter", rstrCI "protection"]

/-- `(prompt|instructions?)` -/
def promptAlt : RE := ralt [rstrCI "prompt", rcat [rstrCI "instruction", ropt (rcharCI 's')]]

/-- `(clients?|customers?|users?|data)` -/
def dataAlt : RE := ralt [
  rcat [rstrCI "client", ropt (rcharCI 's')],
  rcat [rstrCI "customer", ropt (rcharCI 's')],
  rcat [rstrCI "user", ropt (rcharCI 's')],
  rstrCI "data"]

/-- `JAILBREAK_PATTERNS`, in source order. -/
def JAILBREAK_PATTERNS : List RE := [
  rcat [rstrCI "ignore", sp1, ropt (rcat [rstrCI "all", sp1]), prevAlt, sp1,
        rstrCI "instruction", ropt (rcharCI 's')],
  rcat [rstrCI "disregard", sp1, ropt (rcat [rstrCI "all", sp1]), prevAlt, sp1,
        ralt [rcat [rstrCI "instruction", ropt (rcharCI 's')],
              rcat [rstrCI "rule", ropt (rcharCI 's')]]],
  rcat [rstrCI "forget", sp1, ropt (rcat [rstrCI "all", sp1]), prevAlt, sp1,
        rstrCI "instruction", ropt (rcharCI 's')],
  rcat [rstrCI "bypass", sp1, safetyAlt],
  rcat [rstrCI "disable", sp1, safetyAlt],
  rcat [rstrCI "override", sp1, safetyAlt],
  rcat [rstrCI "you", sp1, rstrCI "are", sp1, rstrCI "now", sp1,
        ralt [rcharCI 'a', rstrCI "an"], sp1, rplus (.cls jsWord)],
  rcat [rstrCI "act", sp1, rstrCI "as", sp1, ralt [rstrCI "if", rstrCI "though"],
        sp1, rstrCI "you", sp1, ralt [rstrCI "are", rstrCI "were"]],
  rcat [rstrCI "pretend", sp1,
        ralt [rcat [rstrCI "you", sp1, rstrCI "are"], rcat [rstrCI "to", sp1, rstrCI "be"]]],
  rcat [rstrCI "reveal", sp1, ropt (rcat [rstrCI "your", sp1]),
        ropt (rcat [rstrCI "system", sp1]), promptAlt],
  rcat [rstrCI "show", sp1, ropt (rcat [rstrCI "me", sp1]),
        ropt (rcat [rstrCI "your", sp1]), ropt (rcat [rstrCI "system", sp1]), promptAlt],
  rcat [rstrCI "what", sp1, ralt [rstrCI "are", rstrCI "is"], sp1, rstrCI "your", sp1,
        ropt (rcat [rstrCI "system", sp1]), promptAlt],
  rcat [rstrCI "print", sp1, rstrCI "all", sp1, dataAlt],
  rcat [rstrCI "show", sp1, rstrCI "all", sp1, dataAlt],
  rcat [rstrCI "list", sp1, rstrCI "all", sp1, dataAlt],
  rcat [rstrCI "reveal", sp1, ropt (rcat [rstrCI "all", sp1]),
        ralt [rstrCI "hidden", rstrCI "secret", rstrCI "private"], sp1, rstrCI "data"],
  rcat [rstrCI "export", sp1, rstrCI "all", sp1, rstrCI "data"],
  rcat [.wb, rstrCI "DAN", sp1, rstrCI "mode", .wb],
  rcat [rstrCI "do", sp1, rstrCI "anything", sp1, rstrCI "now"],
  rcat [rstrCI "developer", sp1, rstrCI "mode"],
  rstrCI "[SYSTEM]",
  rstrCI "[ADMIN]",
  rstrCI "[ROOT]",
  rcat [rstrCI "sudo", sp1]]

/-! ## Detector (src/unnamed/part_004) -/

/-- A detector finding: `{type, offsetStart, offsetEnd, value?, details?}`.
`value` is present exactly on PII findings; `details` models the
`{rowCount}` payload of a `BULK_DATA` finding. -/
structure Finding where
  type : String
  offsetStart : Nat
  offsetEnd : Nat
  value : Option String := none
  details : Option Nat := none
deriving Repr, DecidableEq

/-- The `while ((match = pattern.exec(text)) !== null)` loop of `detectPII`,
with the regex object's `lastIndex` threaded explicitly (second component
of the result).  On a failed `exec`, a global regex resets `lastIndex`
to 0.  The fuel only bounds the number of loop iterations; callers pass
`text.length + 2`, and every source pattern consumes at least one character
per match, so the fuel is never exhausted. -/
def piiLoopSt (ty : String) (r : RE) (text : List Char) :
    Nat → Nat → List Finding × Nat
  | 0, li => ([], li)
  | fuel + 1, li =>
    match searchFrom r text li with
    | none => ([], 0)
    | some (i, len) =>
      let f : Finding :=
        { type := ty, offsetStart := i, offsetEnd := i + len,
          value := some (String.mk ((text.drop i).take len)), details := none }
      let rest := piiLoopSt ty r text fuel (i + len)
      (f :: rest.1, rest.2)

/-- `detectPII(text)`: for each pattern, reset `lastIndex` to 0 and collect
every match as a finding, appending per-pattern results in table order. -/
def detectPII (text : String) : List Finding :=
  (PII_PATTERNS.map (fun p => (piiLoopSt p.1 p.2 text.data (text.length + 2) 0).1)).flatten

/-- Result of `detectBulkData`. -/
structure BulkResult where
  isBulk : Bool
  rowCount : Nat
deriving Repr, DecidableEq

/-- `line.match(/\s{2,}/g)` is non-null: some two consecutive whitespace
characters occur. -/
def hasWsRun : List Char → Bool
  | [] => false
  | [_] => false
  | c1 :: c2 :: rest => (jsSpace c1 && jsSpace c2) || hasWsRun (c2 :: rest)

/-- `line.split(/\s{2,}/)`: split at each maximal run of at least two
whitespace characters (the greedy regex consumes the full run). -/
def splitWsRunGo : List Char → List Char → List String
  | [], acc => [String.mk acc.reverse]
  | [c], acc => [String.mk (c :: acc).reverse]
  | c1 :: c2 :: rest, acc =>
    if jsSpace c1 && jsSpace c2 then
      String.mk acc.reverse :: splitWsRunGo (List.dropWhile jsSpace rest) []
    else
      splitWsRunGo (c2 :: rest) (c1 :: acc)
termination_by l _ => l.length
decreasing_by
  · simp only [List.length_cons]
    have h : ∀ l : List Char, (List.dropWhile jsSpace l).length ≤ l.length := by
      intro l
      induction l with
      | nil => simp
      | cons a as ih =>
        rw [List.dropWhile_cons]
        split
        · simp only [List.length_cons]; omega
        · exact Nat.le_refl _
    have := h rest
    omega
  · simp only [List.length_cons]
    omega

def splitWsRun (line : String) : List String := splitWsRunGo line.data []

/-- The row heuristic applied to each line by `detectBulkData`. -/
def isTableRow (line : String) : Bool :=
  (jsIncludes line "," && (splitOnChar ',' line).length > 3) ||
  (jsIncludes line "\t" && (splitOnChar '\t' line).length > 3) ||
  (hasWsRun line.data && (splitWsRun line).length > 3)

/-- The `bulkIndicators` array of `detectBulkData`. -/
def bulkIndicators : List String := ["list of", "all clients", "all customers", "full list"]

/-- `detectBulkData(text)` (src/unnamed/part_004, lines 101-130). -/
def detectBulkData (text : String) : BulkResult :=
  let lines := splitOnChar '\n' text
  let rowCount := lines.length
  let tableRows := (lines.filter isTableRow).length
  if tableRows > 10 then
    { isBulk := true, rowCount := tableRows }
  else
    let hasBulkIndicators := bulkIndicators.any (fun indicator => jsIncludes (jsToLower text) indicator)
    { isBulk := hasBulkIndicators || rowCount > 50, rowCount := rowCount }

/-- The shared shape of `detectSQLInjection` / `detectXSS` /
`detectJailbreak`: walk the family's pattern list; on the first pattern
whose `test` succeeds, push a single whole-text finding and break. -/
def injectionScan (ty : String) (text : String) : List RE → List Finding
  | [] => []
  | p :: rest =>
    if reTest p text then
      [{ type := ty, offsetStart := 0, offsetEnd := text.length, value := none, details := none }]
    else injectionScan ty text rest

/-- `detectSQLInjection(text)`. -/
def detectSQLInjection (text : String) : List Finding :=
  injectionScan "SQL_INJECTION" text SQL_INJECTION_PATTERNS

/-- `detectXSS(text)`. -/
def detectXSS (text : String) : List Finding :=
  injectionScan "XSS_ATTEMPT" text XSS_PATTERNS

/-- `detectJailbreak(text)`. -/
def detectJailbreak (text : String) : List Finding :=
  injectionScan "JAILBREAK_PATTERN" text JAILBREAK_PATTERNS

/-- The `highRiskTypes` array of `calculateAnomalyScore`. -/
def highRiskTypes : List String :=
  ["SQL_INJECTION", "XSS_ATTEMPT", "JAILBREAK_PATTERN",
   "API_KEY_OPENAI", "API_KEY_AWS",
   "SSN", "CREDIT_CARD", "PASSPORT", "DRIVERS_LICENSE", "MEDICAL_ID", "IBAN"]

/-- `calculateAnomalyScore(findings, text)` (src/unnamed/part_004,
lines 212-239). -/
def calculateAnomalyScore (findings : List Finding) (text : String) : Nat :=
  let score := min (findings.length * 5) 30
  let highRiskCount := (findings.filter (fun f => highRiskTypes.contains f.type)).length
  let score := score + highRiskCount * 25
  let uniqueTypes := (findings.map (fun f => f.type)).eraseDups
  let score := if uniqueTypes.length > 3 then score + 15 else score
  let score := if text.length > 1000 && findings.length > 5 then score + 10 else score
  min score 100

/-- The detector's analysis record. -/
structure Analysis where
  riskLevel : String
  findings : List Finding
  anomalyScore : Nat
deriving Repr, DecidableEq

/-- `f.type.includes('API_KEY') || f.type.includes('SECRET')`. -/
def isKeyOrSecret (f : Finding) : Bool :=
  jsIncludes f.type "API_KEY" || jsIncludes f.type "SECRET"

/-- `analyzeText(text)` (src/unnamed/part_004, lines 242-292). -/
def analyzeText (text : String) : Analysis :=
  let piiFindings := detectPII text
  let bulkData := detectBulkData text
  let sqlFindings := detectSQLInjection text
  let xssFindings := detectXSS text
  let jailbreakFindings := detectJailbreak text
  let allFindings := piiFindings ++ sqlFindings ++ xssFindings ++ jailbreakFindings ++
    (if bulkData.isBulk then
      [{ type := "BULK_DATA", offsetStart := 0, offsetEnd := text.length,
         value := none, details := some bulkData.rowCount }]
     else [])
  let anomalyScore := calculateAnomalyScore allFindings text
  let hasHighRiskFindings := !sqlFindings.isEmpty || !xssFindings.isEmpty || !jailbreakFindings.isEmpty
  let hasAPIKeys := allFindings.any isKeyOrSecret
  let riskLevel :=
    if hasHighRiskFindings || hasAPIKeys || anomalyScore ≥ 70 then "HIGH"
    else if !allFindings.isEmpty || bulkData.isBulk || anomalyScore ≥ 40 then "MEDIUM"
    else "LOW"
  { riskLevel := riskLevel, findings := allFindings, anomalyScore := anomalyScore }

/-! ## Policy engine (src/modules/policyEngine.js) -/

/-- `makeDecision`'s result record.  `sanitizedText` is initialized to
`null` and never assigned in the source, so it is always `none`. -/
structure PolicyDecision where
  decision : String
  reasonCodes : List String
  sanitizedText : Option String
  userMessage : String
deriving Repr, DecidableEq

/-- The PII category list `makeDecision` tests `findingTypes` against
(policyEngine.js lines 12-14). -/
def policyPIITypes : List String :=
  ["EMAIL", "PHONE", "SSN", "ID_NUMBER", "CREDIT_CARD", "IBAN", "ADDRESS"]

/-- `makeDecision(analysis, context)` (policyEngine.js lines 4-82); the
`context.userRole` default is `'employee'`, supplied by callers here. -/
def makeDecision (analysis : Analysis) (userRole : String) : PolicyDecision :=
  let findingTypes := analysis.findings.map (fun f => f.type)
  let hasPII := findingTypes.any (fun t => policyPIITypes.contains t)
  let hasBulkData := findingTypes.contains "BULK_DATA"
  let hasExfilAttempt := findingTypes.contains "EXFIL_ATTEMPT"
  let hasJailbreakPattern := findingTypes.contains "JAILBREAK_PATTERN"
  if analysis.riskLevel = "HIGH" || hasExfilAttempt || hasJailbreakPattern then
    { decision := "BLOCK",
      reasonCodes := [if hasExfilAttempt then "EXFIL_ATTEMPT"
                      else if hasJailbreakPattern then "JAILBREAK_PATTERN"
                      else "HIGH_RISK"],
      sanitizedText := none,
      userMessage :=
        if hasExfilAttempt then
          "This prompt appears to be attempting data extraction and has been blocked."
        else if hasJailbreakPattern then
          "This prompt contains instructions that attempt to bypass safety measures and has been blocked."
        else
          "This content has been blocked due to high security risk." }
  else if hasBulkData then
    let bulkFinding := analysis.findings.find? (fun f => f.type = "BULK_DATA")
    let bigBulk : Bool :=
      match bulkFinding with
      | some f => match f.details with
        | some rowCount => decide (rowCount > 10)
        | none => false
      | none => false
    if bigBulk then
      { decision := "BLOCK", reasonCodes := ["BULK_DATA"], sanitizedText := none,
        userMessage := "Large data sets have been blocked for security. Please use the Document Wizard for safe processing." }
    else if hasPII then
      { decision := if userRole = "employee" then "WARN_AND_SANITIZE" else "WARN_AND_ALLOW",
        reasonCodes := ["PII_DETECTED"], sanitizedText := none,
        userMessage := "Sensitive information detected. Content will be sanitized before sending." }
    else
      { decision := "ALLOW", reasonCodes := [], sanitizedText := none, userMessage := "" }
  else if hasPII then
    { decision := if userRole = "employee" then "WARN_AND_SANITIZE" else "WARN_AND_ALLOW",
      reasonCodes := ["PII_DETECTED"], sanitizedText := none,
      userMessage := "Sensitive information detected. Content will be sanitized before sending." }
  else if analysis.riskLevel = "LOW" then
    { decision := "ALLOW", reasonCodes := [], sanitizedText := none,
      userMessage := "Content approved for sending." }
  else
    { decision := "WARN_AND_ALLOW", reasonCodes := ["MEDIUM_RISK"], sanitizedText := none,
      userMessage := "Content has medium risk factors. Please review before sending." }

/-! ## Anonymizer (src/unnamed/part_002) -/

structure AnonymizationSummary where
  removed : List String
  bulkDataHandled : Bool
deriving Repr, DecidableEq

structure AnonymizationResult where
  sanitizedText : String
  changed : Bool
  summary : AnonymizationSummary
deriving Repr, DecidableEq

/-- `findings.sort((a, b) => b.offsetStart - a.offsetStart)`: stable sort,
descending by `offsetStart` (`Array.prototype.sort` is stable, so any
stable algorithm gives the array the source produces; insertion sort is
used here). -/
def insertDescByOffset (f : Finding) : List Finding → List Finding
  | [] => [f]
  | g :: rest =>
    if g.offsetStart > f.offsetStart then g :: insertDescByOffset f rest
    else f :: g :: rest

def sortDescByOffset : List Finding → List Finding
  | [] => []
  | f :: rest => insertDescByOffset f (sortDescByOffset rest)

/-- The types skipped by the anonymizer's security-finding guard. -/
def securityFindingTypes : List String :=
  ["EXFIL_ATTEMPT", "JAILBREAK_PATTERN", "SQL_INJECTION", "XSS_ATTEMPT"]

/-- The `switch (type)` of `anonymizeText`: the literal replacement
placeholder (the default branch produces a bracketed type name). -/
def replacementFor (type : String) : String :=
  if type = "EMAIL" then "[EMAIL]"
  else if type = "PHONE" then "[PHONE_NUMBER]"
  else if type = "SSN" then "[SSN]"
  else if type = "CREDIT_CARD" then "[CREDIT_CARD]"
  else if type = "ID_NUMBER" then "[ID_NUMBER]"
  else if type = "IBAN" then "[IBAN]"
  else if type = "ADDRESS" then "[ADDRESS]"
  else if type = "PASSPORT" then "[PASSPORT]"
  else if type = "DRIVERS_LICENSE" then "[DL]"
  else if type = "MEDICAL_ID" then "[MEDICAL_ID]"
  else if type = "TAX_ID" then "[TAX_ID]"
  else if type = "VAT_NUMBER" then "[VAT]"
  else if type = "API_KEY_OPENAI" || type = "API_KEY_AWS" || type = "API_KEY_GENERIC" || type = "SECRET_KEY" then "[API_KEY]"
  else "[" ++ type ++ "]"

/-- The tag added to `removedTypes` in the same `switch` (the four
key/secret cases collapse to `API_KEY`; the default adds the type
itself). -/
def removedTagFor (type : String) : String :=
  if type = "API_KEY_OPENAI" || type = "API_KEY_AWS" || type = "API_KEY_GENERIC" || type = "SECRET_KEY" then "API_KEY"
  else type

/-- `Set.prototype.add`: insertion-ordered, ignoring duplicates. -/
def addIfNew (l : List String) (t : String) : List String :=
  if l.contains t then l else l ++ [t]

/-- Loop state of `anonymizeText`. -/
structure AnonState where
  sanitizedText : String
  changed : Bool
  removedTypes : List String
  bulkDataHandled : Bool
deriving Repr, DecidableEq

/-- One iteration of the `for (const finding of sortedFindings)` loop. -/
def anonymizeStep (st : AnonState) (finding : Finding) : AnonState :=
  if finding.type = "BULK_DATA" then
    { st with bulkDataHandled := true }
  else if securityFindingTypes.contains finding.type then
    st
  else
    let replacement := replacementFor finding.type
    let removedTypes := addIfNew st.removedTypes (removedTagFor finding.type)
    -- `charAt(offsetEnd)` is the empty string past the end, which is falsy,
    -- so a space is appended also when the span ends the text.
    let cs := st.sanitizedText.data
    let addSpace : String :=
      match cs.get? finding.offsetEnd with
      | some c => if jsSpace c then "" else " "
      | none => " "
    { sanitizedText := String.mk (cs.take finding.offsetStart ++ replacement.data ++
        addSpace.data ++ cs.drop finding.offsetEnd),
      changed := true,
      removedTypes := removedTypes,
      bulkDataHandled := st.bulkDataHandled }

/-- `anonymizeText(text, findings)` (src/unnamed/part_002, lines 4-123).
`findings.sort(...)` sorts the caller's array in place, so the call's
observable effect on its argument is modelled by the second component:
the state of the caller's findings array after the call. -/
def anonymizeText (text : String) (findings : List Finding) :
    AnonymizationResult × List Finding :=
  let sortedFindings := sortDescByOffset findings
  let st := sortedFindings.foldl anonymizeStep
    { sanitizedText := text, changed := false, removedTypes := [], bulkDataHandled := false }
  -- the in-place sort already happened, so `findings.find` below runs on
  -- the sorted array
  let bulkDataHandled :=
    match sortedFindings.find? (fun f => f.type = "BULK_DATA") with
    | some f => match f.details with
      | some rowCount => if rowCount > 10 then true else st.bulkDataHandled
      | none => st.bulkDataHandled
    | none => st.bulkDataHandled
  ({ sanitizedText := st.sanitizedText, changed := st.changed,
     summary := { removed := st.removedTypes, bulkDataHandled := bulkDataHandled } },
   sortedFindings)

/-! ## Entity mapper (src/services/TelemetryService.js, lines 213-251) -/

/-- The findings `buildEntityMap` reads: it accesses `finding.category`
(absent on detector findings, which carry `type`) and `finding.value`. -/
structure EMFinding where
  category : Option String
  value : String
deriving Repr, DecidableEq

/-- An entity-map entry `{originalValue, category}`. -/
structure EMEntry where
  originalValue : String
  category : String
deriving Repr, DecidableEq

/-- JavaScript object property assignment on a string-keyed record held as
an insertion-ordered association list: overwrite in place or append. -/
def setKey {α : Type} : List (String × α) → String → α → List (String × α)
  | [], k, v => [(k, v)]
  | (k', v') :: rest, k, v =>
    if k' = k then (k, v) :: rest else (k', v') :: setKey rest k v

/-- `getCategoryPrefix(category)` of TelemetryService (the table of
placeholder prefixes; unknown categories fall back to `DATA`). -/
def getCategoryKey (category : String) : String :=
  if category = "EMAIL" then "EMAIL"
  else if category = "PHONE" then "PHONE"
  else if category = "SSN" then "ID"
  else if category = "CREDIT_CARD" then "CC"
  else if category = "PASSPORT" then "PASSPORT"
  else if category = "PII_PERSON" then "CLIENT"
  else if category = "PII_ORG" then "COMPANY"
  else if category = "FINANCIAL" then "ACCOUNT"
  else if category = "ADDRESS" then "ADDRESS"
  else "DATA"

/-- The `findings.forEach` body of `buildEntityMap`: note that the source
guards with `if (!entityMap[value])`, i.e. it looks the *value* up among
the *placeholder* keys of the map, while entries are stored under
`entityMap[placeholder]`. -/
def buildEntityMapGo :
    List EMFinding → List (String × EMEntry) → List (String × Nat) → List (String × EMEntry)
  | [], entityMap, _ => entityMap
  | f :: rest, entityMap, counters =>
    let category := match f.category with
      | some c => if c = "" then "PII" else c
      | none => "PII"
    let value := f.value
    if (entityMap.lookup value).isSome then
      buildEntityMapGo rest entityMap counters
    else
      let key := getCategoryKey category
      let n := (counters.lookup key).getD 0 + 1
      let placeholder := key ++ "_" ++ toString n
      buildEntityMapGo rest (setKey entityMap placeholder { originalValue := value, category := category })
        (setKey counters key n)

/-- `buildEntityMap(findings)`. -/
def buildEntityMap (findings : List EMFinding) : List (String × EMEntry) :=
  buildEntityMapGo findings [] []

/-! ## Output filter (src/unnamed/part_003) -/

/-- A JavaScript value stored in an entity map handed to `scanOutput`:
either a bare string or an `{originalValue, category}` object (the shape
`buildEntityMap` produces).  Calling a string method such as
`toLowerCase` on the object form raises a `TypeError`. -/
inductive JSVal where
  | str (s : String)
  | obj (originalValue : String) (category : String)
deriving Repr, DecidableEq

/-- Case-insensitive leftmost occurrence of `needle` in `hay`
(`text.toLowerCase().indexOf(match.toLowerCase())`). -/
def indexOfCIGo (needle : List Char) : Nat → List Char → Option Nat
  | _, [] => if needle.isEmpty then some 0 else none
  | i, c :: rest =>
    if hasPrefixL (needle.map Char.toLower) ((c :: rest).map Char.toLower) then some i
    else indexOfCIGo needle (i + 1) rest

def indexOfCI (hay needle : List Char) : Option Nat :=
  match indexOfCIGo needle 0 hay with
  | some i => some i
  | none => none

/-- `getContext(text, match, radius)` (src/unnamed/part_003,
lines 157-165). -/
def getContext (text needle : String) (radius : Nat) : String :=
  match indexOfCI text.data needle.data with
  | none => ""
  | some index =>
    let startPos := index - radius
    let endPos := min text.length (index + needle.length + radius)
    "..." ++ String.mk ((text.data.take endPos).drop startPos) ++ "..."

/-- The delimiter class `[@._\-\s]` of `findPartialMatch`. -/
def partDelim (c : Char) : Bool :=
  c = '@' || c = '.' || c = '_' || c = '-' || jsSpace c

/-- `original.split(/[@._\-\s]/)`. -/
def splitDelimGo : List Char → List Char → List String
  | [], acc => [String.mk acc.reverse]
  | c :: rest, acc =>
    if partDelim c then String.mk acc.reverse :: splitDelimGo rest []
    else splitDelimGo rest (c :: acc)

/-- `findPartialMatch(text, original)` (src/unnamed/part_003,
lines 170-181): the first delimiter-separated token of `original` longer
than 3 characters that occurs (case-insensitively) in `text`. -/
def findPartialMatch (text original : String) : Option String :=
  let parts := splitDelimGo original.data []
  parts.find? (fun part =>
    part.length > 3 && jsIncludes (jsToLower text) (jsToLower part))

/-- A reversal attempt record; `partialMatch` is present on the attempts
pushed by the partial-match branch. -/
structure Attempt where
  placeholder : String
  original : String
  partialMatch : Option String
  context : String
deriving Repr, DecidableEq

/-- `detectReversalAttempts(text, entityMap)` (src/unnamed/part_003,
lines 64-90).  For each entry the source evaluates
`original.toLowerCase()`; when the entry is an `{originalValue, category}`
object this faults with a `TypeError`, modelled as `Except.error`. -/
def detectReversalAttempts (text : String) :
    List (String × JSVal) → Except String (List Attempt)
  | [] => .ok []
  | (placeholder, original) :: rest =>
    match original with
    | .obj _ _ => .error "TypeError: original.toLowerCase is not a function"
    | .str s =>
      let fullMatches :=
        if jsIncludes (jsToLower text) (jsToLower s) then
          [{ placeholder := placeholder, original := s, partialMatch := none,
             context := getContext text s 50 }]
        else []
      let partialMatches :=
        match findPartialMatch text s with
        | some p =>
          [{ placeholder := placeholder, original := s, partialMatch := some p,
             context := getContext text p 50 }]
        | none => []
      match detectReversalAttempts text rest with
      | .error e => .error e
      | .ok more => .ok (fullMatches ++ partialMatches ++ more)

/-- A suspicious-pattern record `{keyword, context, reason}`. -/
structure SuspiciousHit where
  keyword : String
  context : String
  reason : String
deriving Repr, DecidableEq

/-- The `anonymizationKeywords` array of `detectSuspiciousPatterns`. -/
def anonymizationKeywords : List String :=
  ["anonymized", "placeholder", "redacted", "masked",
   "EMAIL_1", "PHONE_1", "SSN_1", "CLIENT_1"]

/-- `detectSuspiciousPatterns(text)` (src/unnamed/part_003,
lines 95-115). -/
def detectSuspiciousPatterns (text : String) : List SuspiciousHit :=
  anonymizationKeywords.filterMap (fun keyword =>
    if jsIncludes (jsToLower text) (jsToLower keyword) then
      some { keyword := keyword, context := getContext text keyword 30,
             reason := "LLM discussing anonymization process" }
    else none)

/-- A top-level output-filter finding.  The source tags these records with
`type`/`severity`/`message` string constants
(`SENSITIVE_IN_OUTPUT`/HIGH, `REVERSAL_ATTEMPT`/CRITICAL,
`SUSPICIOUS_PATTERN`/MEDIUM); the constructor encodes the tag and the
payload field (`patterns` resp. `attempts`). -/
inductive OutFinding where
  | sensitive (patterns : List Finding)
  | reversal (attempts : List Attempt)
  | suspicious (patterns : List SuspiciousHit)
deriving Repr, DecidableEq

/-- Global case-insensitive literal replacement:
`masked.replace(new RegExp(escapeRegex(target), 'gi'), repl)`.
`escapeRegex` makes the pattern literal, so the regex matches exactly the
(case-folded) characters of `target`; matches are leftmost and
non-overlapping, and an empty pattern matches at every position. -/
def replaceAllCIGo (target repl : List Char) : Nat → List Char → List Char
  | 0, s => s
  | _ + 1, [] => if target.isEmpty then repl else []
  | fuel + 1, c :: rest =>
    if target.isEmpty then repl ++ c :: replaceAllCIGo target repl fuel rest
    else if hasPrefixL (target.map Char.toLower) ((c :: rest).map Char.toLower) then
      repl ++ replaceAllCIGo target repl fuel ((c :: rest).drop target.length)
    else c :: replaceAllCIGo target repl fuel rest

def replaceAllCI (s target repl : String) : String :=
  String.mk (replaceAllCIGo target.data repl.data (s.length + 1) s.data)

/-- `maskSensitiveContent(text, findings)` (src/unnamed/part_003,
lines 120-152).  `SENSITIVE_IN_OUTPUT` patterns are replaced only when
they carry a truthy `value`; `REVERSAL_ATTEMPT` originals become their
placeholder and partial matches `[REDACTED]`; `SUSPICIOUS_PATTERN`
findings contribute no replacement. -/
def maskSensitiveContent (text : String) (findings : List OutFinding) : String :=
  findings.foldl (fun masked finding =>
    match finding with
    | .sensitive patterns =>
      patterns.foldl (fun m p =>
        match p.value with
        | some v => if v ≠ "" then replaceAllCI m v "[REDACTED]" else m
        | none => m) masked
    | .reversal attempts =>
      attempts.foldl (fun m a =>
        let m := replaceAllCI m a.original a.placeholder
        match a.partialMatch with
        | some p => replaceAllCI m p "[REDACTED]"
        | none => m) masked
    | .suspicious _ => masked) text

/-- `scanOutput`'s result: the safe shape `{safe: true, text, findings: []}`
or the unsafe shape `{safe: false, findings, originalText, maskedText}`. -/
structure ScanResult where
  safe : Bool
  findings : List OutFinding
  text : String
  maskedText : Option String
deriving Repr, DecidableEq

/-- `scanOutput(text, originalEntityMap)` (src/unnamed/part_003,
lines 8-59).  The `TypeError` that `detectReversalAttempts` raises on
object-valued entries propagates (the `async` wrapper turns it into a
rejected promise), modelled by `Except.error`. -/
def scanOutput (text : String) (originalEntityMap : List (String × JSVal)) :
    Except String ScanResult :=
  let analysis := analyzeText text
  let findings1 : List OutFinding :=
    if analysis.findings.length > 0 then [.sensitive analysis.findings] else []
  match detectReversalAttempts text originalEntityMap with
  | .error e => .error e
  | .ok reversalAttempts =>
    let findings2 := findings1 ++
      (if reversalAttempts.length > 0 then [.reversal reversalAttempts] else [])
    let suspicious := detectSuspiciousPatterns text
    let findings3 := findings2 ++
      (if suspicious.length > 0 then [.suspicious suspicious] else [])
    if findings3.length > 0 then
      .ok { safe := false, findings := findings3, text := text,
            maskedText := some (maskSensitiveContent text findings3) }
    else
      .ok { safe := true, findings := [], text := text, maskedText := none }

/-! ## Module-level regex state (for the determinism property)

The scanner patterns are module-level global `RegExp` objects with the `g`
flag, so each carries a mutable `lastIndex`.  The definitions below thread
that state explicitly: a scanner takes the list of current `lastIndex`
values of its pattern table and returns the updated list alongside its
findings, mirroring exactly where the source reads, resets and writes
`lastIndex`. -/

/-- `detectPII`'s per-pattern work with the global state explicit: the
source assigns `pattern.lastIndex = 0` before its `exec` loop (so the
incoming value is overwritten), and a failing `exec` leaves `lastIndex`
at 0. -/
def detectPIISt (text : String) :
    List (String × RE) → List Nat → List Finding × List Nat
  | [], _ => ([], [])
  | p :: rest, st =>
    let r := piiLoopSt p.1 p.2 text.data (text.length + 2) 0
    let restR := detectPIISt text rest st.tail
    (r.1 ++ restR.1, r.2 :: restR.2)

/-- The family loop (`detectSQLInjection` and its two siblings) with the
global state explicit.  `pattern.lastIndex = 0; pattern.test(text)` on a
global regex advances `lastIndex` past the match on success and resets it
to 0 on failure; `break` leaves the remaining patterns' `lastIndex`
untouched, so the incoming state survives in the output there. -/
def famLoopSt (text : String) :
    List RE → List Nat → Bool × List Nat
  | [], _ => (false, [])
  | r :: rest, st =>
    match searchFrom r text.data 0 with
    | some (i, len) => (true, (i + len) :: st.tail)
    | none =>
      let restR := famLoopSt text rest st.tail
      (restR.1, 0 :: restR.2)

def injectionScanSt (ty : String) (text : String) (pats : List RE) (st : List Nat) :
    List Finding × List Nat :=
  let r := famLoopSt text pats st
  ((if r.1 then
      [{ type := ty, offsetStart := 0, offsetEnd := text.length, value := none, details := none }]
    else []), r.2)

/-- The `lastIndex` values of all global scanner patterns. -/
structure RegexGlobals where
  piiLI : List Nat
  sqlLI : List Nat
  xssLI : List Nat
  jbLI : List Nat
deriving Repr, DecidableEq

/-- `analyzeText` with the module-level regex state explicit. -/
def analyzeTextSt (globals : RegexGlobals) (text : String) : Analysis × RegexGlobals :=
  let pii := detectPIISt text PII_PATTERNS globals.piiLI
  let bulkData := detectBulkData text
  let sql := injectionScanSt "SQL_INJECTION" text SQL_INJECTION_PATTERNS globals.sqlLI
  let xss := injectionScanSt "XSS_ATTEMPT" text XSS_PATTERNS globals.xssLI
  let jailbreak := injectionScanSt "JAILBREAK_PATTERN" text JAILBREAK_PATTERNS globals.jbLI
  let allFindings := pii.1 ++ sql.1 ++ xss.1 ++ jailbreak.1 ++
    (if bulkData.isBulk then
      [{ type := "BULK_DATA", offsetStart := 0, offsetEnd := text.length,
         value := none, details := some bulkData.rowCount }]
     else [])
  let anomalyScore := calculateAnomalyScore allFindings text
  let hasHighRiskFindings := !sql.1.isEmpty || !xss.1.isEmpty || !jailbreak.1.isEmpty
  let hasAPIKeys := allFindings.any isKeyOrSecret
  let riskLevel :=
    if hasHighRiskFindings || hasAPIKeys || anomalyScore ≥ 70 then "HIGH"
    else if !allFindings.isEmpty || bulkData.isBulk || anomalyScore ≥ 40 then "MEDIUM"
    else "LOW"
  ({ riskLevel := riskLevel, findings := allFindings, anomalyScore := anomalyScore },
   { piiLI := pii.2, sqlLI := sql.2, xssLI := xss.2, jbLI := jailbreak.2 })

/-! ## Specification-side definitions

These follow the wording of the specification (not the code) and are
compared against the embedded code in the refinement-style claims. -/

/-- Spec wording: "a first matching pattern in the family's fixed pattern
list produces the single whole-text finding; no match, no finding." -/
def firstMatchScan (ty : String) (text : String) (pats : List RE) : List Finding :=
  match pats.find? (fun p => reTest p text) with
  | some _ =>
    [{ type := ty, offsetStart := 0, offsetEnd := text.length, value := none, details := none }]
  | none => []

/-- Spec wording: `anomalyScore = min(100, 5×min(findingCount,6) +
25×highRiskFindingCount + 15 if >3 distinct categories + 10 if len>1000
and findingCount>5)`. -/
def specAnomalyScore (findings : List Finding) (text : String) : Nat :=
  min 100 (5 * min findings.length 6
    + 25 * (findings.filter (fun f => highRiskTypes.contains f.type)).length
    + (if 3 < ((findings.map (fun f => f.type)).eraseDups).length then 15 else 0)
    + (if 1000 < text.length ∧ 5 < findings.length then 10 else 0))

/-- Spec wording for `riskLevel = HIGH`: "any SQL/XSS/jailbreak finding or
any key/secret finding is present or the score is ≥ 70". -/
def specHighCond (findings : List Finding) (score : Nat) : Prop :=
  (∃ f ∈ findings,
    f.type = "SQL_INJECTION" ∨ f.type = "XSS_ATTEMPT" ∨ f.type = "JAILBREAK_PATTERN") ∨
  (∃ f ∈ findings, isKeyOrSecret f = true) ∨ 70 ≤ score

/-- Spec wording for `riskLevel = MEDIUM` (given not HIGH): "findings are
non-empty or bulk was detected or the score is ≥ 40". -/
def specMediumCond (findings : List Finding) (bulkDetected : Bool) (score : Nat) : Prop :=
  findings ≠ [] ∨ bulkDetected = true ∨ 40 ≤ score

/-! ## Helper lemmas -/

theorem string_contains_iff (l : List String) (x : String) :
    l.contains x = true ↔ x ∈ l := by
  simp

theorem types_contains_iff (fs : List Finding) (t : String) :
    (fs.map (fun f => f.type)).contains t = true ↔ ∃ f ∈ fs, f.type = t := by
  rw [string_contains_iff]
  simp [List.mem_map]

theorem types_contains_false (fs : List Finding) (t : String)
    (h : ∀ f ∈ fs, f.type ≠ t) :
    (fs.map (fun f => f.type)).contains t = false := by
  rw [Bool.eq_false_iff]
  intro hc
  obtain ⟨f, hf, hft⟩ := (types_contains_iff fs t).mp hc
  exact h f hf hft

/-! ## Claims -/

/-- **C1** (code_bug exhibit).  The claim states that `buildEntityMap`
assigns exactly one placeholder per distinct finding value.  The source
guards with `if (!entityMap[value])` but stores entries under
`entityMap[placeholder]`, so the guard never sees previously mapped
values: two findings with the identical value `"john@x.com"` receive the
two distinct placeholders `EMAIL_1` and `EMAIL_2`, and the same value is
recorded under both. -/
theorem claim_C1_buildEntityMap_duplicates :
    buildEntityMap [{ category := some "EMAIL", value := "john@x.com" },
                    { category := some "EMAIL", value := "john@x.com" }] =
      [("EMAIL_1", { originalValue := "john@x.com", category := "EMAIL" }),
       ("EMAIL_2", { originalValue := "john@x.com", category := "EMAIL" })] ∧
    (∃ p1 ∈ buildEntityMap [{ category := some "EMAIL", value := "john@x.com" },
                            { category := some "EMAIL", value := "john@x.com" }],
     ∃ p2 ∈ buildEntityMap [{ category := some "EMAIL", value := "john@x.com" },
                            { category := some "EMAIL", value := "john@x.com" }],
      p1.1 ≠ p2.1 ∧ p1.2.originalValue = p2.2.originalValue) := by
  constructor
  · rfl
  · decide

/-- **C3** (code_bug exhibit).  The claim states that
`scanOutput("Contact john@example.com", {EMAIL_1: {originalValue: ...}})`
returns normally with `safe = false`.  In the source,
`detectReversalAttempts` evaluates `original.toLowerCase()` on the
object-shaped entry, which raises a `TypeError`, so the call faults
instead of returning a result. -/
theorem claim_C3_scanOutput_faults :
    ∃ e, scanOutput "Contact john@example.com"
        [("EMAIL_1", JSVal.obj "john@example.com" "EMAIL")] = .error e :=
  ⟨"TypeError: original.toLowerCase is not a function", rfl⟩

theorem insertDescByOffset_perm (f : Finding) (l : List Finding) :
    (insertDescByOffset f l).Perm (f :: l) := by
  induction l with
  | nil => exact List.Perm.refl _
  | cons g rest ih =>
    rw [insertDescByOffset]
    split
    · exact (List.Perm.cons g ih).trans (List.Perm.swap f g rest)
    · exact List.Perm.refl _

theorem sortDescByOffset_perm (l : List Finding) :
    (sortDescByOffset l).Perm l := by
  induction l with
  | nil => simp [sortDescByOffset]
  | cons f rest ih =>
    exact (insertDescByOffset_perm f (sortDescByOffset rest)).trans (ih.cons f)

theorem insertDescByOffset_sorted (f : Finding) (l : List Finding)
    (h : List.Sorted (fun a b : Finding => b.offsetStart ≤ a.offsetStart) l) :
    List.Sorted (fun a b : Finding => b.offsetStart ≤ a.offsetStart)
      (insertDescByOffset f l) := by
  induction l with
  | nil => simp [insertDescByOffset]
  | cons g rest ih =>
    rw [insertDescByOffset]
    rw [List.sorted_cons] at h
    split
    · rename_i hgf
      rw [List.sorted_cons]
      refine ⟨?_, ih h.2⟩
      intro b hb
      have hperm := insertDescByOffset_perm f rest
      have hb' : b ∈ f :: rest := hperm.mem_iff.mp hb
      rcases List.mem_cons.mp hb' with rfl | hbr
      · omega
      · exact h.1 b hbr
    · rename_i hgf
      rw [List.sorted_cons]
      refine ⟨?_, List.sorted_cons.mpr h⟩
      intro b hb
      rcases List.mem_cons.mp hb with rfl | hbr
      · omega
      · have := h.1 b hbr
        omega

theorem sortDescByOffset_sorted (l : List Finding) :
    List.Sorted (fun a b : Finding => b.offsetStart ≤ a.offsetStart)
      (sortDescByOffset l) := by
  induction l with
  | nil => simp [sortDescByOffset]
  | cons f rest ih => exact insertDescByOffset_sorted f _ ih

/-- **C8 amended**.  `anonymizeText` does not leave its findings argument
unchanged: `findings.sort(...)` sorts the caller's array in place.  After
the call the caller's findings sequence is the stable
descending-by-`offsetStart` permutation of the original — detection order
survives only when it was already descending. -/
theorem claim_C8_amended (text : String) (findings : List Finding) :
    (anonymizeText text findings).2 = sortDescByOffset findings ∧
    ((anonymizeText text findings).2).Perm findings ∧
    List.Sorted (fun a b : Finding => b.offsetStart ≤ a.offsetStart)
      (anonymizeText text findings).2 := by
  refine ⟨rfl, ?_, ?_⟩
  · exact sortDescByOffset_perm findings
  · exact sortDescByOffset_sorted findings

/-- **C8 counterexample**.  Two findings in ascending (detection) order:
after `anonymizeText` returns, the caller's array holds them in descending
offset order, so the sequence is no longer the original one. -/
theorem claim_C8_counterexample :
    (anonymizeText "abcdefgh"
        [{ type := "EMAIL", offsetStart := 0, offsetEnd := 1, value := none, details := none },
         { type := "SSN", offsetStart := 5, offsetEnd := 6, value := none, details := none }]).2 ≠
      [{ type := "EMAIL", offsetStart := 0, offsetEnd := 1, value := none, details := none },
       { type := "SSN", offsetStart := 5, offsetEnd := 6, value := none, details := none }] := by
  decide

/-- **C4 amended**.  The engine's PII test covers only the seven categories
`EMAIL, PHONE, SSN, ID_NUMBER, CREDIT_CARD, IBAN, ADDRESS`
(policyEngine.js lines 12-14) — not the detector's full PII family.  For
an analysis containing a finding of one of those seven categories, with
no `BULK_DATA` finding, risk level not HIGH and no exfiltration/jailbreak
finding, `makeDecision` returns `WARN_AND_SANITIZE` for `employee` and
`WARN_AND_ALLOW` for other roles, with reason code `PII_DETECTED`. -/
theorem claim_C4_amended (a : Analysis) (userRole : String)
    (hpii : ∃ f ∈ a.findings, f.type ∈ policyPIITypes)
    (hnobulk : ∀ f ∈ a.findings, f.type ≠ "BULK_DATA")
    (hrisk : a.riskLevel ≠ "HIGH")
    (hnoexfil : ∀ f ∈ a.findings, f.type ≠ "EXFIL_ATTEMPT")
    (hnojb : ∀ f ∈ a.findings, f.type ≠ "JAILBREAK_PATTERN") :
    makeDecision a userRole =
      { decision := if userRole = "employee" then "WARN_AND_SANITIZE" else "WARN_AND_ALLOW",
        reasonCodes := ["PII_DETECTED"], sanitizedText := none,
        userMessage := "Sensitive information detected. Content will be sanitized before sending." } := by
  have hex : ¬∃ f ∈ a.findings, f.type = "EXFIL_ATTEMPT" := by
    rintro ⟨f, hf, h⟩; exact hnoexfil f hf h
  have hjb2 : ¬∃ f ∈ a.findings, f.type = "JAILBREAK_PATTERN" := by
    rintro ⟨f, hf, h⟩; exact hnojb f hf h
  have hbulk2 : ¬∃ f ∈ a.findings, f.type = "BULK_DATA" := by
    rintro ⟨f, hf, h⟩; exact hnobulk f hf h
  simp [makeDecision, hrisk, hex, hjb2, hbulk2, hpii]

/-- **C4 witness**: a concrete analysis with one `EMAIL` finding at
MEDIUM risk satisfies every hypothesis of the amended claim, and the
engine indeed answers `WARN_AND_SANITIZE` / `PII_DETECTED` for an
employee. -/
theorem claim_C4_witness :
    makeDecision
        { riskLevel := "MEDIUM",
          findings := [{ type := "EMAIL", offsetStart := 0, offsetEnd := 6,
                         value := some "a@b.cd", details := none }],
          anomalyScore := 5 } "employee" =
      { decision := if "employee" = "employee" then "WARN_AND_SANITIZE" else "WARN_AND_ALLOW",
        reasonCodes := ["PII_DETECTED"], sanitizedText := none,
        userMessage := "Sensitive information detected. Content will be sanitized before sending." } :=
  claim_C4_amended _ "employee" (by decide) (by decide) (by decide) (by decide) (by decide)

/-- **C4 counterexample**.  A `PASSPORT` finding is a detector PII
category, and the analysis satisfies every hypothesis of the original
claim (no bulk, risk MEDIUM, no exfiltration/jailbreak), yet
`makeDecision` answers `WARN_AND_ALLOW` with reason `MEDIUM_RISK`, not
the claimed `WARN_AND_SANITIZE` with `PII_DETECTED`: `PASSPORT` is absent
from the engine's PII list. -/
theorem claim_C4_counterexample :
    (∃ f ∈ ({ riskLevel := "MEDIUM",
              findings := [{ type := "PASSPORT", offsetStart := 0, offsetEnd := 8,
                             value := some "AB123456", details := none }],
              anomalyScore := 30 } : Analysis).findings, f.type = "PASSPORT") ∧
    (∀ f ∈ ({ riskLevel := "MEDIUM",
              findings := [{ type := "PASSPORT", offsetStart := 0, offsetEnd := 8,
                             value := some "AB123456", details := none }],
              anomalyScore := 30 } : Analysis).findings,
      f.type ≠ "BULK_DATA" ∧ f.type ≠ "EXFIL_ATTEMPT" ∧ f.type ≠ "JAILBREAK_PATTERN") ∧
    makeDecision
        { riskLevel := "MEDIUM",
          findings := [{ type := "PASSPORT", offsetStart := 0, offsetEnd := 8,
                         value := some "AB123456", details := none }],
          anomalyScore := 30 } "employee" =
      { decision := "WARN_AND_ALLOW", reasonCodes := ["MEDIUM_RISK"], sanitizedText := none,
        userMessage := "Content has medium risk factors. Please review before sending." } ∧
    "WARN_AND_ALLOW" ≠ "WARN_AND_SANITIZE" := by
  decide

/-- **C10**.  An analysis whose findings include `BULK_DATA` findings all
with row count at most 10 (or no recorded row count), no finding in the
engine's PII category list, no exfiltration/jailbreak finding, and risk
level other than HIGH, silently passes: `makeDecision` answers `ALLOW`
with empty reason codes and empty user message, although such an analysis
is MEDIUM risk. -/
theorem claim_C10_small_bulk_allow (a : Analysis) (userRole : String)
    (hbulk : ∃ f ∈ a.findings, f.type = "BULK_DATA")
    (hsmall : ∀ f ∈ a.findings, f.type = "BULK_DATA" → f.details.getD 0 ≤ 10)
    (hnopii : ∀ f ∈ a.findings, f.type ∉ policyPIITypes)
    (hnoexfil : ∀ f ∈ a.findings, f.type ≠ "EXFIL_ATTEMPT")
    (hnojb : ∀ f ∈ a.findings, f.type ≠ "JAILBREAK_PATTERN")
    (hrisk : a.riskLevel ≠ "HIGH") :
    makeDecision a userRole =
      { decision := "ALLOW", reasonCodes := [], sanitizedText := none, userMessage := "" } := by
  have hex : ¬∃ f ∈ a.findings, f.type = "EXFIL_ATTEMPT" := by
    rintro ⟨f, hf, h⟩; exact hnoexfil f hf h
  have hjb2 : ¬∃ f ∈ a.findings, f.type = "JAILBREAK_PATTERN" := by
    rintro ⟨f, hf, h⟩; exact hnojb f hf h
  have hpii2 : ¬∃ f ∈ a.findings, f.type ∈ policyPIITypes := by
    rintro ⟨f, hf, h⟩; exact hnopii f hf h
  cases hfb : a.findings.find? (fun f => f.type = "BULK_DATA") with
  | none =>
    exfalso
    obtain ⟨f, hf, hft⟩ := hbulk
    have := List.find?_eq_none.mp hfb f hf
    simp [hft] at this
  | some fb =>
    have hmatch : (match fb.details with
        | some rowCount => decide (rowCount > 10)
        | none => false) = false := by
      have hmem := List.mem_of_find?_eq_some hfb
      have htype : fb.type = "BULK_DATA" := by
        have := List.find?_some hfb
        simpa using this
      have hle := hsmall fb hmem htype
      match hd : fb.details with
      | some rowCount =>
        rw [hd] at hle
        simp only [Option.getD_some] at hle
        simp only [decide_eq_false_iff_not]
        omega
      | none => simp
    simp [makeDecision, hrisk, hex, hjb2, hbulk, hpii2, hfb, hmatch]

theorem injectionScan_eq_firstMatch (ty text : String) (pats : List RE) :
    injectionScan ty text pats = firstMatchScan ty text pats := by
  induction pats with
  | nil => rfl
  | cons p rest ih =>
    by_cases h : reTest p text = true
    · simp [injectionScan, firstMatchScan, List.find?_cons, h]
    · rw [Bool.not_eq_true] at h
      simp [injectionScan, firstMatchScan, List.find?_cons, h, ih]

theorem firstMatchScan_shape (ty text : String) (pats : List RE) :
    firstMatchScan ty text pats = [] ∨
    firstMatchScan ty text pats =
      [{ type := ty, offsetStart := 0, offsetEnd := text.length, value := none, details := none }] := by
  rw [firstMatchScan]
  cases pats.find? (fun p => reTest p text) with
  | none => left; rfl
  | some _ => right; rfl

/-- **C6**.  Each of the three injection-family scanners emits at most one
finding; the emitted finding is produced by the first pattern of the
family's fixed list whose test succeeds (`firstMatchScan` is the
first-match-wins reformulation via `List.find?`); and every emitted
finding spans the whole text with no `value`. -/
theorem claim_C6_first_match_wins (text : String) :
    detectSQLInjection text = firstMatchScan "SQL_INJECTION" text SQL_INJECTION_PATTERNS ∧
    detectXSS text = firstMatchScan "XSS_ATTEMPT" text XSS_PATTERNS ∧
    detectJailbreak text = firstMatchScan "JAILBREAK_PATTERN" text JAILBREAK_PATTERNS ∧
    (detectSQLInjection text).length ≤ 1 ∧
    (detectXSS text).length ≤ 1 ∧
    (detectJailbreak text).length ≤ 1 ∧
    (∀ f ∈ detectSQLInjection text ++ detectXSS text ++ detectJailbreak text,
      f.offsetStart = 0 ∧ f.offsetEnd = text.length ∧ f.value = none) := by
  have h1 := injectionScan_eq_firstMatch "SQL_INJECTION" text SQL_INJECTION_PATTERNS
  have h2 := injectionScan_eq_firstMatch "XSS_ATTEMPT" text XSS_PATTERNS
  have h3 := injectionScan_eq_firstMatch "JAILBREAK_PATTERN" text JAILBREAK_PATTERNS
  have len : ∀ ty pats, (firstMatchScan ty text pats).length ≤ 1 := by
    intro ty pats
    rcases firstMatchScan_shape ty text pats with h | h <;> simp [h]
  have mem : ∀ ty pats f, f ∈ firstMatchScan ty text pats →
      f.offsetStart = 0 ∧ f.offsetEnd = text.length ∧ f.value = none := by
    intro ty pats f hf
    rcases firstMatchScan_shape ty text pats with h | h <;> rw [h] at hf
    · simp at hf
    · simp at hf
      subst hf
      exact ⟨rfl, rfl, rfl⟩
  refine ⟨h1, h2, h3, ?_, ?_, ?_, ?_⟩
  · rw [detectSQLInjection, h1]; exact len _ _
  · rw [detectXSS, h2]; exact len _ _
  · rw [detectJailbreak, h3]; exact len _ _
  · intro f hf
    rcases List.mem_append.mp hf with hf' | hf'
    · rcases List.mem_append.mp hf' with hf'' | hf''
      · exact mem _ _ f (by rw [detectSQLInjection, h1] at hf''; exact hf'')
      · exact mem _ _ f (by rw [detectXSS, h2] at hf''; exact hf'')
    · exact mem _ _ f (by rw [detectJailbreak, h3] at hf'; exact hf')

theorem detectPIISt_fst (text : String) (pats : List (String × RE)) (st : List Nat) :
    (detectPIISt text pats st).1 =
      (pats.map (fun p => (piiLoopSt p.1 p.2 text.data (text.length + 2) 0).1)).flatten := by
  induction pats generalizing st with
  | nil => rfl
  | cons p rest ih => simp [detectPIISt, ih st.tail]

theorem injectionScanSt_fst (ty text : String) (pats : List RE) (st : List Nat) :
    (injectionScanSt ty text pats st).1 = injectionScan ty text pats := by
  induction pats generalizing st with
  | nil => rfl
  | cons r rest ih =>
    rw [injectionScanSt, famLoopSt]
    cases h : searchFrom r text.data 0 with
    | some v => simp [injectionScan, reTest, h]
    | none =>
      simp only [injectionScan, reTest, h, Option.isSome_none, Bool.false_eq_true, if_false]
      have := ih st.tail
      rw [injectionScanSt] at this
      simpa using this

/-- **C7**.  `analyzeText` is deterministic despite the module-level global
regex objects: with the patterns' mutable `lastIndex` state threaded
explicitly, the analysis produced from any two global states (so from any
interleaving of calls, each of which may leave different `lastIndex`
values behind) is the same, and equals the pure `analyzeText`.  This holds
because every scanner resets `lastIndex` to 0 before using a pattern. -/
theorem claim_C7_deterministic (g1 g2 : RegexGlobals) (text : String) :
    (analyzeTextSt g1 text).1 = (analyzeTextSt g2 text).1 ∧
    (analyzeTextSt g1 text).1 = analyzeText text := by
  suffices h : ∀ g, (analyzeTextSt g text).1 = analyzeText text by
    exact ⟨(h g1).trans (h g2).symm, h g1⟩
  intro g
  have hp : (detectPIISt text PII_PATTERNS g.piiLI).1 = detectPII text := by
    rw [detectPIISt_fst]; rfl
  have hs : (injectionScanSt "SQL_INJECTION" text SQL_INJECTION_PATTERNS g.sqlLI).1 =
      detectSQLInjection text := injectionScanSt_fst _ _ _ _
  have hx : (injectionScanSt "XSS_ATTEMPT" text XSS_PATTERNS g.xssLI).1 =
      detectXSS text := injectionScanSt_fst _ _ _ _
  have hj : (injectionScanSt "JAILBREAK_PATTERN" text JAILBREAK_PATTERNS g.jbLI).1 =
      detectJailbreak text := injectionScanSt_fst _ _ _ _
  simp only [analyzeTextSt, analyzeText, hp, hs, hx, hj]

theorem foldl_mask_value_none (fs : List Finding) :
    (∀ f ∈ fs, f.value = none) → ∀ (m : String),
      fs.foldl (fun m p =>
        match p.value with
        | some v => if v ≠ "" then replaceAllCI m v "[REDACTED]" else m
        | none => m) m = m := by
  induction fs with
  | nil => intro _ m; rfl
  | cons f rest ih =>
    intro h m
    have hf : f.value = none := h f (by simp)
    simp only [List.foldl_cons, hf]
    exact ih (fun g hg => h g (by simp [hg])) m

/-- **C9**.  When the detector finds only findings that carry no `value`
(the injection families and `BULK_DATA`), and the entity map is empty,
`scanOutput` flags the output (`safe = false`) yet the masked text it
returns is character-for-character the input: `maskSensitiveContent` only
replaces `SENSITIVE_IN_OUTPUT` patterns that carry a `value`, so no
redaction is applied. -/
theorem claim_C9_unsafe_but_unmasked (text : String)
    (hne : (analyzeText text).findings ≠ [])
    (hval : ∀ f ∈ (analyzeText text).findings, f.value = none) :
    ∃ r, scanOutput text [] = .ok r ∧ r.safe = false ∧ r.maskedText = some text := by
  have hlen : (analyzeText text).findings.length > 0 := List.length_pos.mpr hne
  by_cases hs : (detectSuspiciousPatterns text).length > 0
  · refine ⟨{ safe := false,
              findings := [.sensitive (analyzeText text).findings,
                           .suspicious (detectSuspiciousPatterns text)],
              text := text, maskedText := some text }, ?_, rfl, rfl⟩
    have hmask : maskSensitiveContent text
        [.sensitive (analyzeText text).findings,
         .suspicious (detectSuspiciousPatterns text)] = text := by
      simp only [maskSensitiveContent, List.foldl_cons, List.foldl_nil]
      exact foldl_mask_value_none _ hval text
    simp only [scanOutput, detectReversalAttempts, if_pos hlen, List.length_nil,
      gt_iff_lt, Nat.lt_irrefl, if_false, List.append_nil, if_pos hs, hmask]
    simp [hmask]
  · refine ⟨{ safe := false,
              findings := [.sensitive (analyzeText text).findings],
              text := text, maskedText := some text }, ?_, rfl, rfl⟩
    have hmask : maskSensitiveContent text
        [.sensitive (analyzeText text).findings] = text := by
      simp only [maskSensitiveContent, List.foldl_cons, List.foldl_nil]
      exact foldl_mask_value_none _ hval text
    simp only [scanOutput, detectReversalAttempts, if_pos hlen, List.length_nil,
      gt_iff_lt, Nat.lt_irrefl, if_false, List.append_nil, if_neg hs, hmask]
    simp [hmask]

/-- **C9 witness**: `"sudo ls"` trips only the jailbreak scanner (a
value-less whole-text finding), and `scanOutput` with an empty entity map
answers `safe = false` with the masked text equal to the input. -/
theorem claim_C9_witness :
    ∃ r, scanOutput "sudo ls" [] = .ok r ∧ r.safe = false ∧
      r.maskedText = some "sudo ls" :=
  claim_C9_unsafe_but_unmasked "sudo ls" (by decide) (by decide)

theorem calcScore_eq_spec (fs : List Finding) (text : String) :
    calculateAnomalyScore fs text = specAnomalyScore fs text := by
  simp only [calculateAnomalyScore, specAnomalyScore, Bool.and_eq_true, decide_eq_true_eq]
  split_ifs <;> omega

theorem piiLoopSt_types (ty : String) (r : RE) (text : List Char) :
    ∀ fuel li f, f ∈ (piiLoopSt ty r text fuel li).1 → f.type = ty := by
  intro fuel
  induction fuel with
  | zero => intro li f hf; simp [piiLoopSt] at hf
  | succ fuel ih =>
    intro li f hf
    rw [piiLoopSt] at hf
    cases h : searchFrom r text li with
    | none => rw [h] at hf; simp at hf
    | some v =>
      obtain ⟨i, len⟩ := v
      rw [h] at hf
      simp only [List.mem_cons] at hf
      rcases hf with rfl | hf'
      · rfl
      · exact ih (i + len) f hf'

/-- The names of the PII pattern table. -/
theorem detectPII_types (text : String) :
    ∀ f ∈ detectPII text, f.type ∈ PII_PATTERNS.map Prod.fst := by
  intro f hf
  rw [detectPII] at hf
  obtain ⟨l, hl, hfl⟩ := List.mem_flatten.mp hf
  obtain ⟨p, hp, rfl⟩ := List.mem_map.mp hl
  have := piiLoopSt_types p.1 p.2 text.data _ _ f hfl
  rw [this]
  exact List.mem_map.mpr ⟨p, hp, rfl⟩

theorem injection_present_iff (text : String) (pii sql xss jb bulkF : List Finding)
    (hpiiT : ∀ f ∈ pii, f.type ∈ PII_PATTERNS.map Prod.fst)
    (hsql : sql = [] ∨ sql = [(⟨"SQL_INJECTION", 0, text.length, none, none⟩ : Finding)])
    (hxss : xss = [] ∨ xss = [(⟨"XSS_ATTEMPT", 0, text.length, none, none⟩ : Finding)])
    (hjb : jb = [] ∨ jb = [(⟨"JAILBREAK_PATTERN", 0, text.length, none, none⟩ : Finding)])
    (hbulkT : ∀ f ∈ bulkF, f.type = "BULK_DATA") :
    (∃ f ∈ pii ++ sql ++ xss ++ jb ++ bulkF,
        f.type = "SQL_INJECTION" ∨ f.type = "XSS_ATTEMPT" ∨ f.type = "JAILBREAK_PATTERN") ↔
      (sql ≠ [] ∨ xss ≠ [] ∨ jb ≠ []) := by
  constructor
  · rintro ⟨f, hf, hft⟩
    simp only [List.mem_append] at hf
    rcases hf with ((((h | h) | h) | h) | h)
    · exfalso
      have hn := hpiiT f h
      rcases hft with h1 | h1 | h1 <;> rw [h1] at hn <;> revert hn <;> decide
    · exact Or.inl (List.ne_nil_of_mem h)
    · exact Or.inr (Or.inl (List.ne_nil_of_mem h))
    · exact Or.inr (Or.inr (List.ne_nil_of_mem h))
    · exfalso
      have hb := hbulkT f h
      rcases hft with h1 | h1 | h1 <;> rw [h1] at hb <;> revert hb <;> decide
  · rintro (h | h | h)
    · rcases hsql with h0 | h0
      · exact absurd h0 h
      · refine ⟨⟨"SQL_INJECTION", 0, text.length, none, none⟩, ?_, Or.inl rfl⟩
        simp only [List.mem_append, h0]
        exact Or.inl (Or.inl (Or.inl (Or.inr (by simp))))
    · rcases hxss with h0 | h0
      · exact absurd h0 h
      · refine ⟨⟨"XSS_ATTEMPT", 0, text.length, none, none⟩, ?_, Or.inr (Or.inl rfl)⟩
        simp only [List.mem_append, h0]
        exact Or.inl (Or.inl (Or.inr (by simp)))
    · rcases hjb with h0 | h0
      · exact absurd h0 h
      · refine ⟨⟨"JAILBREAK_PATTERN", 0, text.length, none, none⟩, ?_, Or.inr (Or.inr rfl)⟩
        simp only [List.mem_append, h0]
        exact Or.inl (Or.inr (by simp))

theorem injectionScan_shape (ty text : String) (pats : List RE) :
    injectionScan ty text pats = [] ∨
    injectionScan ty text pats =
      [{ type := ty, offsetStart := 0, offsetEnd := text.length, value := none, details := none }] := by
  rw [injectionScan_eq_firstMatch]
  exact firstMatchScan_shape ty text pats

/-- **C5**.  The detector's anomaly score equals the spec's closed formula
(`specAnomalyScore`, written from the spec's wording), and the risk level
is exactly the spec's classification: HIGH iff an injection-family finding
or a key/secret finding is present or the score is at least 70; MEDIUM iff
(not HIGH and) findings are non-empty or bulk was detected or the score is
at least 40; LOW otherwise. -/
theorem claim_C5_risk_scoring (text : String) :
    (analyzeText text).anomalyScore = specAnomalyScore (analyzeText text).findings text ∧
    ((analyzeText text).riskLevel = "HIGH" ↔
      specHighCond (analyzeText text).findings (analyzeText text).anomalyScore) ∧
    ((analyzeText text).riskLevel = "MEDIUM" ↔
      ¬ specHighCond (analyzeText text).findings (analyzeText text).anomalyScore ∧
        specMediumCond (analyzeText text).findings (detectBulkData text).isBulk
          (analyzeText text).anomalyScore) ∧
    ((analyzeText text).riskLevel = "LOW" ↔
      ¬ specHighCond (analyzeText text).findings (analyzeText text).anomalyScore ∧
      ¬ specMediumCond (analyzeText text).findings (detectBulkData text).isBulk
          (analyzeText text).anomalyScore) := by
  have hscore : (analyzeText text).anomalyScore =
      calculateAnomalyScore (analyzeText text).findings text := rfl
  have part1 : (analyzeText text).anomalyScore =
      specAnomalyScore (analyzeText text).findings text := by
    rw [hscore, calcScore_eq_spec]
  have hbulkT : ∀ f ∈ (if (detectBulkData text).isBulk then
      [({ type := "BULK_DATA", offsetStart := 0, offsetEnd := text.length,
          value := none, details := some (detectBulkData text).rowCount } : Finding)] else []),
      f.type = "BULK_DATA" := by
    split
    · intro f hf; simp at hf; rw [hf]
    · intro f hf; simp at hf
  have hinj := injection_present_iff text (detectPII text) (detectSQLInjection text)
    (detectXSS text) (detectJailbreak text) _
    (detectPII_types text)
    (injectionScan_shape "SQL_INJECTION" text SQL_INJECTION_PATTERNS)
    (injectionScan_shape "XSS_ATTEMPT" text XSS_PATTERNS)
    (injectionScan_shape "JAILBREAK_PATTERN" text JAILBREAK_PATTERNS)
    hbulkT
  have hfind : (analyzeText text).findings =
      detectPII text ++ detectSQLInjection text ++ detectXSS text ++ detectJailbreak text ++
      (if (detectBulkData text).isBulk then
        [{ type := "BULK_DATA", offsetStart := 0, offsetEnd := text.length,
           value := none, details := some (detectBulkData text).rowCount }] else []) := rfl
  have hcond1 : ((!(detectSQLInjection text).isEmpty || !(detectXSS text).isEmpty ||
        !(detectJailbreak text).isEmpty || (analyzeText text).findings.any isKeyOrSecret ||
        decide ((analyzeText text).anomalyScore ≥ 70)) = true) ↔
      specHighCond (analyzeText text).findings (analyzeText text).anomalyScore := by
    rw [specHighCond]
    simp only [Bool.or_eq_true, Bool.not_eq_true', List.isEmpty_eq_false, decide_eq_true_eq,
      List.any_eq_true]
    constructor
    · rintro ((((h | h) | h) | h) | h)
      · exact Or.inl (hfind ▸ hinj.mpr (Or.inl h))
      · exact Or.inl (hfind ▸ hinj.mpr (Or.inr (Or.inl h)))
      · exact Or.inl (hfind ▸ hinj.mpr (Or.inr (Or.inr h)))
      · exact Or.inr (Or.inl h)
      · exact Or.inr (Or.inr h)
    · rintro (h | h | h)
      · rcases hinj.mp (hfind ▸ h) with h' | h' | h'
        · exact Or.inl (Or.inl (Or.inl (Or.inl h')))
        · exact Or.inl (Or.inl (Or.inl (Or.inr h')))
        · exact Or.inl (Or.inl (Or.inr h'))
      · exact Or.inl (Or.inr h)
      · exact Or.inr h
  have hcond2 : ((!(analyzeText text).findings.isEmpty || (detectBulkData text).isBulk ||
        decide ((analyzeText text).anomalyScore ≥ 40)) = true) ↔
      specMediumCond (analyzeText text).findings (detectBulkData text).isBulk
        (analyzeText text).anomalyScore := by
    rw [specMediumCond]
    simp only [Bool.or_eq_true, Bool.not_eq_true', List.isEmpty_eq_false, decide_eq_true_eq]
    constructor
    · rintro ((h | h) | h)
      · exact Or.inl h
      · exact Or.inr (Or.inl h)
      · exact Or.inr (Or.inr h)
    · rintro (h | h | h)
      · exact Or.inl (Or.inl h)
      · exact Or.inl (Or.inr h)
      · exact Or.inr h
  have hR : (analyzeText text).riskLevel =
      if ((!(detectSQLInjection text).isEmpty || !(detectXSS text).isEmpty ||
          !(detectJailbreak text).isEmpty || (analyzeText text).findings.any isKeyOrSecret ||
          decide ((analyzeText text).anomalyScore ≥ 70)) = true) then "HIGH"
      else if ((!(analyzeText text).findings.isEmpty || (detectBulkData text).isBulk ||
          decide ((analyzeText text).anomalyScore ≥ 40)) = true) then "MEDIUM"
      else "LOW" := rfl
  refine ⟨part1, ?_, ?_, ?_⟩
  · by_cases h1 : specHighCond (analyzeText text).findings (analyzeText text).anomalyScore
    · rw [hR, if_pos (hcond1.mpr h1)]
      simp [h1]
    · rw [hR, if_neg (fun hb => h1 (hcond1.mp hb))]
      constructor
      · intro hcontra
        exfalso
        split at hcontra <;> simp_all
      · intro hcontra; exact absurd hcontra h1
  · by_cases h1 : specHighCond (analyzeText text).findings (analyzeText text).anomalyScore
    · rw [hR, if_pos (hcond1.mpr h1)]
      constructor
      · intro hc; exact absurd hc (by decide)
      · rintro ⟨hn, _⟩; exact absurd h1 hn
    · rw [hR, if_neg (fun hb => h1 (hcond1.mp hb))]
      by_cases h2 : specMediumCond (analyzeText text).findings (detectBulkData text).isBulk
          (analyzeText text).anomalyScore
      · rw [if_pos (hcond2.mpr h2)]
        simp [h1, h2]
      · rw [if_neg (fun hb => h2 (hcond2.mp hb))]
        constructor
        · intro hc; exact absurd hc (by decide)
        · rintro ⟨_, hm⟩; exact absurd hm h2
  · by_cases h1 : specHighCond (analyzeText text).findings (analyzeText text).anomalyScore
    · rw [hR, if_pos (hcond1.mpr h1)]
      constructor
      · intro hc; exact absurd hc (by decide)
      · rintro ⟨hn, _⟩; exact absurd h1 hn
    · rw [hR, if_neg (fun hb => h1 (hcond1.mp hb))]
      by_cases h2 : specMediumCond (analyzeText text).findings (detectBulkData text).isBulk
          (analyzeText text).anomalyScore
      · rw [if_pos (hcond2.mpr h2)]
        constructor
        · intro hc; exact absurd hc (by decide)
        · rintro ⟨_, hm⟩; exact absurd h2 hm
      · rw [if_neg (fun hb => h2 (hcond2.mp hb))]
        simp [h1, h2]

set_option maxRecDepth 1000000 in
/-- **C2 amended**.  On `"My email is jane@firm.com and SSN 123-45-6789"`
the detector finds exactly {EMAIL, SSN} at risk MEDIUM, and the policy
engine (role employee) decides WARN_AND_SANITIZE with PII_DETECTED — as
the claim states — but the anonymizer's output carries one trailing
space: `charAt(offsetEnd)` at the end of the text is the empty string,
which is falsy, so a space is appended after `[SSN]`. -/
theorem claim_C2_amended :
    (analyzeText "My email is jane@firm.com and SSN 123-45-6789").findings.map
      (fun f => f.type) = ["EMAIL", "SSN"] ∧
    (analyzeText "My email is jane@firm.com and SSN 123-45-6789").riskLevel = "MEDIUM" ∧
    makeDecision (analyzeText "My email is jane@firm.com and SSN 123-45-6789") "employee" =
      { decision := "WARN_AND_SANITIZE", reasonCodes := ["PII_DETECTED"], sanitizedText := none,
        userMessage := "Sensitive information detected. Content will be sanitized before sending." } ∧
    (anonymizeText "My email is jane@firm.com and SSN 123-45-6789"
        (analyzeText "My email is jane@firm.com and SSN 123-45-6789").findings).1.sanitizedText =
      "My email is [EMAIL] and SSN [SSN] " := by
  refine ⟨by decide, by decide, by decide, by decide⟩

set_option maxRecDepth 1000000 in
/-- **C2 counterexample**.  The sanitized text the pipeline produces for
the claim's input is not the claimed string without a trailing space. -/
theorem claim_C2_counterexample :
    (anonymizeText "My email is jane@firm.com and SSN 123-45-6789"
        (analyzeText "My email is jane@firm.com and SSN 123-45-6789").findings).1.sanitizedText ≠
      "My email is [EMAIL] and SSN [SSN]" := by
  decide

/-- **C10 witness**: a MEDIUM-risk analysis holding one `BULK_DATA`
finding with row count 5 and nothing else is allowed through with no
reason codes and no message. -/
theorem claim_C10_witness :
    makeDecision
        { riskLevel := "MEDIUM",
          findings := [{ type := "BULK_DATA", offsetStart := 0, offsetEnd := 20,
                         value := none, details := some 5 }],
          anomalyScore := 5 } "manager" =
      { decision := "ALLOW", reasonCodes := [], sanitizedText := none, userMessage := "" } :=
  claim_C10_small_bulk_allow _ "manager" (by decide) (by decide) (by decide)
    (by decide) (by decide) (by decide)

end SafeAI
